import Mathlib

/-!
Verification development for the firebase-all client library.

The repository is a thin TypeScript access layer over the Firebase SDK:
a generic Firestore CRUD facade (`FirestoreService`, src/unnamed/part_001),
a collection-scoped variant (`FirestoreServiceInstance`,
src/src/services/firestoreServiceInstance.ts), an auth session manager
(`FirebaseAuthService`, same file), and a singleton lifecycle manager
(`FirebaseInit`, src/src/services/firebaseInit.ts).

The remote document store and identity backend are external collaborators;
they are modelled here as explicit data (association lists for collections,
an optional fault value standing for a thrown backend error, and a function
argument standing for the interactive sign-in popup). Every wrapper
definition below is a direct transcription of the corresponding TypeScript
method; try/catch becomes an `Except` value, and the caught backend error
is the `fault` argument.
-/

namespace FirebaseAll

/-- A document body: a JS object mapping field names to (numeric) values,
modelled as an association list. -/
abbrev Doc := List (String × Int)

/-- A collection: document identifiers mapped to document bodies. -/
abbrev Coll := List (String × Doc)

/-- The remote store: collection names mapped to collections. -/
abbrev Store := List (String × Coll)

/-- First-match association-list lookup (JS object / Map access). -/
def alookup {β : Type} : List (String × β) → String → Option β
  | [], _ => none
  | (k, v) :: rest, s => if s = k then some v else alookup rest s

/-- The collection with the given name; Firestore treats an unknown
collection name as an empty collection. -/
def collOf (db : Store) (name : String) : Coll :=
  (alookup db name).getD []

/-- Write a value under a key: overwrite the existing entry in place, or
append a new one. Models the external store primitive setDoc at document
level and collection replacement at store level. -/
def aset {β : Type} : List (String × β) → String → β → List (String × β)
  | [], key, v => [(key, v)]
  | (k, w) :: rest, key, v =>
    if k = key then (key, v) :: rest else (k, w) :: aset rest key v

/-- Remove a key. Models the external store primitive deleteDoc. -/
def aremove {β : Type} (l : List (String × β)) (key : String) : List (String × β) :=
  l.filter (fun kv => !(kv.1 == key))

/-- The existing fields after the merge: each field of the base document
keeps its place, overwritten when the partial data carries the field. -/
def mergeOver : Doc → Doc → Doc
  | [], _ => []
  | (k, v) :: rest, p => (k, (alookup p k).getD v) :: mergeOver rest p

/-- Field-level merge applied by the external store primitive updateDoc to
an existing document: fields present in the partial data overwrite, fields
absent are untouched, new fields are appended. -/
def mergeDoc (base p : Doc) : Doc :=
  mergeOver base p ++ p.filter fun kv => (alookup base kv.1).isNone

/-- The message of the error thrown by the external updateDoc primitive
when the target document does not exist. -/
def updateDocMissingMsg : String := "No document to update"

/-- Comparison operator of a store-native query constraint. -/
inductive QOp
  | qeq | qlt | qgt | qle | qge
deriving DecidableEq

/-- A store-native query constraint, an opaque (field, operator, value)
triple passed through to the backend. -/
structure QueryConstraint where
  field : String
  op : QOp
  value : Int
deriving DecidableEq

def QOp.test : QOp → Int → Int → Bool
  | .qeq, a, b => a == b
  | .qlt, a, b => a < b
  | .qgt, a, b => a > b
  | .qle, a, b => a ≤ b
  | .qge, a, b => a ≥ b

/-- Whether a document satisfies one constraint (a document lacking the
field does not match). -/
def QueryConstraint.holds (qc : QueryConstraint) (d : Doc) : Bool :=
  match alookup d qc.field with
  | some v => qc.op.test v qc.value
  | none => false

/-- The external backend evaluates a query as the conjunction of its
constraints over the collection. -/
def runConstraints (cs : List QueryConstraint) (c : Coll) : Coll :=
  c.filter fun kv => cs.all fun qc => qc.holds kv.2

/-! ## FirestoreService (src/unnamed/part_001)

Generic CRUD facade, collection name passed per call. Each method takes a
`fault` argument: `some f` means the awaited backend call inside the try
block threw with message `f`, `none` means the backend call succeeded.
Methods with a side effect return the updated store together with the
value the TypeScript method returns. -/

/-- Embeds FirestoreService.create: picks the custom id or the
store-generated id `genId`, writes `data` with setDoc, and returns the
data tagged with the id; a caught backend error is rethrown wrapped. -/
def FirestoreService.create (fault : Option String) (db : Store)
    (collectionName : String) (data : Doc) (customId : Option String)
    (genId : String) : Except String (Store × (String × Doc)) :=
  match fault with
  | some f => .error ("Error creating document: " ++ f)
  | none =>
    let docId := customId.getD genId
    let c := collOf db collectionName
    .ok (aset db collectionName (aset c docId data), (docId, data))

/-- Embeds FirestoreService.read: getDoc, then the document body if the
snapshot exists, else null; a caught backend error is rethrown wrapped. -/
def FirestoreService.read (fault : Option String) (db : Store)
    (collectionName : String) (documentId : String) :
    Except String (Option Doc) :=
  match fault with
  | some f => .error ("Error reading document: " ++ f)
  | none =>
    match alookup (collOf db collectionName) documentId with
    | some d => .ok (some d)
    | none => .ok none

/-- Embeds FirestoreService.update: updateDoc (field-level merge, throws
when the document is missing), then an unconditional re-read, returning
the re-read body tagged with the id; a caught error is rethrown wrapped. -/
def FirestoreService.update (fault : Option String) (db : Store)
    (collectionName : String) (documentId : String) (data : Doc) :
    Except String (Store × (String × Doc)) :=
  match fault with
  | some f => .error ("Error updating document: " ++ f)
  | none =>
    let c := collOf db collectionName
    match alookup c documentId with
    | none => .error ("Error updating document: " ++ updateDocMissingMsg)
    | some d =>
      let c := aset c documentId (mergeDoc d data)
      let db := aset db collectionName c
      .ok (db, (documentId, (alookup c documentId).getD []))

/-- Embeds FirestoreService.delete: deleteDoc; a caught backend error is
rethrown wrapped. -/
def FirestoreService.delete (fault : Option String) (db : Store)
    (collectionName : String) (documentId : String) :
    Except String Store :=
  match fault with
  | some f => .error ("Error deleting document: " ++ f)
  | none =>
    .ok (aset db collectionName (aremove (collOf db collectionName) documentId))

/-- Embeds FirestoreService.getAll: getDocs over the whole collection,
each snapshot mapped to its data tagged with its id; a caught backend
error is rethrown wrapped. -/
def FirestoreService.getAll (fault : Option String) (db : Store)
    (collectionName : String) : Except String Coll :=
  match fault with
  | some f => .error ("Error getting all documents: " ++ f)
  | none =>
    .ok ((collOf db collectionName).map fun kv => (kv.1, kv.2))

/-- Embeds FirestoreService.query: getDocs over the query built from the
constraint list, each snapshot mapped to its data tagged with its id; a
caught backend error is rethrown wrapped. -/
def FirestoreService.query (fault : Option String) (db : Store)
    (collectionName : String) (conditions : List QueryConstraint) :
    Except String Coll :=
  match fault with
  | some f => .error ("Error querying documents: " ++ f)
  | none =>
    .ok ((runConstraints conditions (collOf db collectionName)).map fun kv => (kv.1, kv.2))

/-! ## FirestoreServiceInstance (src/src/services/firestoreServiceInstance.ts)

Collection-scoped specialization: the collection is bound at construction,
so the methods below act directly on the state `c` of that one collection. -/

/-- Embeds FirestoreServiceInstance.create. -/
def FirestoreServiceInstance.create (fault : Option String) (c : Coll)
    (data : Doc) (customId : Option String) (genId : String) :
    Except String (Coll × (String × Doc)) :=
  match fault with
  | some f => .error ("Error creating document: " ++ f)
  | none =>
    let docId := customId.getD genId
    .ok (aset c docId data, (docId, data))

/-- Embeds FirestoreServiceInstance.read. -/
def FirestoreServiceInstance.read (fault : Option String) (c : Coll)
    (documentId : String) : Except String (Option Doc) :=
  match fault with
  | some f => .error ("Error reading document: " ++ f)
  | none =>
    match alookup c documentId with
    | some d => .ok (some d)
    | none => .ok none

/-- Embeds FirestoreServiceInstance.update: updateDoc then re-read. -/
def FirestoreServiceInstance.update (fault : Option String) (c : Coll)
    (documentId : String) (data : Doc) :
    Except String (Coll × (String × Doc)) :=
  match fault with
  | some f => .error ("Error updating document: " ++ f)
  | none =>
    match alookup c documentId with
    | none => .error ("Error updating document: " ++ updateDocMissingMsg)
    | some d =>
      let c := aset c documentId (mergeDoc d data)
      .ok (c, (documentId, (alookup c documentId).getD []))

/-- Embeds FirestoreServiceInstance.delete. -/
def FirestoreServiceInstance.delete (fault : Option String) (c : Coll)
    (documentId : String) : Except String Coll :=
  match fault with
  | some f => .error ("Error deleting document: " ++ f)
  | none => .ok (aremove c documentId)

/-- Embeds FirestoreServiceInstance.getAll. -/
def FirestoreServiceInstance.getAll (fault : Option String) (c : Coll) :
    Except String Coll :=
  match fault with
  | some f => .error ("Error getting all documents: " ++ f)
  | none => .ok (c.map fun kv => (kv.1, kv.2))

/-- Embeds FirestoreServiceInstance.query. -/
def FirestoreServiceInstance.query (fault : Option String) (c : Coll)
    (conditions : List QueryConstraint) : Except String Coll :=
  match fault with
  | some f => .error ("Error querying documents: " ++ f)
  | none => .ok ((runConstraints conditions c).map fun kv => (kv.1, kv.2))

/-! ## FirebaseInit (src/src/services/firebaseInit.ts)

The configuration is a runtime JS object; the TypeScript interface
FirebaseConfig declares six required string fields and an optional
measurementId, but a runtime object may lack any of them, so every field
is modelled as optional. -/

/-- The FirebaseConfig shape as a runtime object: any field may be
absent. -/
structure FirebaseConfig where
  apiKey : Option String
  authDomain : Option String
  projectId : Option String
  storageBucket : Option String
  messagingSenderId : Option String
  appId : Option String
  measurementId : Option String
deriving DecidableEq

/-- The FirebaseInit instance state: the app handle (initializeApp on the
configuration) and the handles derived from it (getFirestore, getAuth,
getAnalytics). Each external handle is opaque and fully determined by the
configuration it was built from, so it is modelled as that
configuration. -/
structure FirebaseInit where
  app : FirebaseConfig
  db : FirebaseConfig
  auth : FirebaseConfig
  analytics : FirebaseConfig
deriving DecidableEq

/-- Embeds the private FirebaseInit constructor: build the app from the
given configuration and derive every service handle from it. -/
def FirebaseInit.construct (firebaseConfig : FirebaseConfig) : FirebaseInit :=
  { app := firebaseConfig
    db := firebaseConfig
    auth := firebaseConfig
    analytics := firebaseConfig }

/-- Embeds FirebaseInit.getInstance. The static field
FirebaseInit.instance is the explicit state (`none` before first
construction); the optional argument mirrors `firebaseConfig?: object`
(any JS object is truthy, so only an absent argument fails the
`!firebaseConfig` test). Returns the instance handed to the caller and
the state after the call, or the thrown error. -/
def FirebaseInit.getInstance (instanceState : Option FirebaseInit)
    (firebaseConfig : Option FirebaseConfig) :
    Except String (FirebaseInit × Option FirebaseInit) :=
  match instanceState with
  | some inst => .ok (inst, some inst)
  | none =>
    match firebaseConfig with
    | none => .error ("Firebase config is required for initialization")
    | some cfg =>
      let inst := FirebaseInit.construct cfg
      .ok (inst, some inst)

/-- Run a sequence of getInstance calls, threading the static instance
state; a thrown error leaves the state unchanged. -/
def runGetInstanceCalls : Option FirebaseInit → List (Option FirebaseConfig) →
    List (Except String FirebaseInit) × Option FirebaseInit
  | st, [] => ([], st)
  | st, cfg :: rest =>
    match FirebaseInit.getInstance st cfg with
    | .ok (inst, st') =>
      let r := runGetInstanceCalls st' rest
      (.ok inst :: r.1, r.2)
    | .error e =>
      let r := runGetInstanceCalls st rest
      (.error e :: r.1, r.2)

/-! ## FirebaseAuthService (src/src/services/firestoreServiceInstance.ts)

Only the parts the claims are about: the provider registry, the social
login entry point, and the error normalizer. -/

/-- The raw value caught by an auth catch block: either a JS Error
instance carrying a message, or any other JS value (string, plain
object, ...), carried here as an opaque description. -/
inductive AuthRaw
  | errObj (message : String)
  | nonError (value : String)
deriving DecidableEq

/-- Embeds FirebaseAuthService.handleAuthError: the message of the Error
it returns. A non-Error input keeps the initial generic message; an Error
input is switched on its message field, unmatched codes passing through
unchanged. -/
def handleAuthError : AuthRaw → String
  | .nonError _ => "An authentication error occurred"
  | .errObj msg =>
    if msg = "auth/email-already-in-use" then "This email is already registered"
    else if msg = "auth/invalid-email" then "Invalid email format"
    else if msg = "auth/operation-not-allowed" then "Operation not allowed"
    else if msg = "auth/weak-password" then "Password is too weak"
    else if msg = "auth/user-disabled" then "This user account has been disabled"
    else if msg = "auth/user-not-found" then "User not found"
    else if msg = "auth/wrong-password" then "Invalid password"
    else msg

/-- The four provider strategy objects held by the registry. -/
inductive ProviderStrategy
  | google | facebook | github | twitter
deriving DecidableEq

/-- Embeds the providers Map built in the FirebaseAuthService
constructor. -/
def providers : List (String × ProviderStrategy) :=
  [("google", .google), ("facebook", .facebook),
   ("github", .github), ("twitter", .twitter)]

/-- Embeds FirebaseAuthService.loginWithProvider. `popup` models the
external signInWithPopup call (a credential or a thrown backend error).
The second component records whether the identity backend was called.
An absent registry entry throws inside the try block, so the thrown
message also passes through handleAuthError. -/
def loginWithProvider (popup : ProviderStrategy → Except String String)
    (providerType : String) : (Except String String) × Bool :=
  match alookup providers providerType with
  | none =>
    (.error (handleAuthError (.errObj ("Provider " ++ providerType ++ " not supported"))), false)
  | some p =>
    match popup p with
    | .ok cred => (.ok cred, true)
    | .error e => (.error (handleAuthError (.errObj e)), true)

/-! ## Basic lemmas about the association-list model -/

theorem alookup_append {β : Type} (l₁ l₂ : List (String × β)) (k : String) :
    alookup (l₁ ++ l₂) k = (alookup l₁ k).or (alookup l₂ k) := by
  induction l₁ with
  | nil => simp [alookup]
  | cons hd tl ih =>
    obtain ⟨k₀, v₀⟩ := hd
    by_cases h : k = k₀ <;> simp [alookup, h, ih]

theorem alookup_aset_self {β : Type} (l : List (String × β)) (key : String) (v : β) :
    alookup (aset l key v) key = some v := by
  induction l with
  | nil => simp [aset, alookup]
  | cons hd tl ih =>
    obtain ⟨k₀, v₀⟩ := hd
    by_cases h : k₀ = key
    · simp [aset, h, alookup]
    · simp [aset, h, alookup, Ne.symm h, ih]

theorem alookup_aset_ne {β : Type} (l : List (String × β)) (key k : String) (v : β)
    (h : k ≠ key) : alookup (aset l key v) k = alookup l k := by
  induction l with
  | nil => simp [aset, alookup, h]
  | cons hd tl ih =>
    obtain ⟨k₀, v₀⟩ := hd
    by_cases hk : k₀ = key
    · subst hk
      simp [aset, alookup, h]
    · by_cases hkk : k = k₀ <;> simp [aset, hk, alookup, hkk, ih]

theorem alookup_mergeOver (base p : Doc) (k : String) :
    alookup (mergeOver base p) k
      = (alookup base k).map fun v => (alookup p k).getD v := by
  induction base with
  | nil => simp [mergeOver, alookup]
  | cons hd tl ih =>
    obtain ⟨k₀, v₀⟩ := hd
    by_cases h : k = k₀
    · subst h
      simp [mergeOver, alookup]
    · simp [mergeOver, alookup, h, ih]

theorem alookup_filter_of_none (base p : Doc) (k : String)
    (h : alookup base k = none) :
    alookup (p.filter fun kv => (alookup base kv.1).isNone) k = alookup p k := by
  induction p with
  | nil => simp
  | cons hd tl ih =>
    obtain ⟨k₀, v₀⟩ := hd
    by_cases hk : k = k₀
    · subst hk
      simp [List.filter_cons, h, alookup]
    · cases hb : (alookup base k₀).isNone <;>
        simp [List.filter_cons, hb, alookup, hk, ih]

theorem alookup_filter_of_some (base p : Doc) (k : String)
    (h : (alookup base k).isSome) :
    alookup (p.filter fun kv => (alookup base kv.1).isNone) k = none := by
  induction p with
  | nil => simp [alookup]
  | cons hd tl ih =>
    obtain ⟨k₀, v₀⟩ := hd
    by_cases hk : k = k₀
    · subst hk
      have hfalse : (alookup base k).isNone = false := by
        cases hb : alookup base k
        · rw [hb] at h; simp at h
        · simp
      simp [List.filter_cons, hfalse, ih]
    · cases hb : (alookup base k₀).isNone <;>
        simp [List.filter_cons, hb, alookup, hk, ih]

/-- Field-level characterization of the store merge: a field present in
the partial data takes its value from there, any other field keeps the
base value. -/
theorem mergeDoc_alookup (base p : Doc) (k : String) :
    alookup (mergeDoc base p) k = (alookup p k).or (alookup base k) := by
  unfold mergeDoc
  rw [alookup_append, alookup_mergeOver]
  cases hb : alookup base k with
  | none =>
    rw [alookup_filter_of_none base p k hb]
    cases alookup p k <;> simp
  | some v =>
    rw [alookup_filter_of_some base p k (by simp [hb])]
    cases alookup p k <;> simp

/-! ## Lemmas about the lifecycle manager and the auth layer -/

theorem runGetInstanceCalls_after_init (inst : FirebaseInit)
    (calls : List (Option FirebaseConfig)) :
    runGetInstanceCalls (some inst) calls
      = (calls.map fun _ => Except.ok inst, some inst) := by
  induction calls with
  | nil => rfl
  | cons c rest ih =>
    simp [runGetInstanceCalls, FirebaseInit.getInstance, ih]

theorem provider_msg_head (p : String) :
    ("Provider " ++ p ++ " not supported").data.head? = some 'P' := by
  obtain ⟨l⟩ := p
  rfl

theorem provider_msg_ne (p t : String) (ht : t.data.head? = some 'a') :
    ("Provider " ++ p ++ " not supported") ≠ t := by
  intro h
  have hh := provider_msg_head p
  rw [h, ht] at hh
  simp at hh

theorem handleAuthError_provider_msg (p : String) :
    handleAuthError (.errObj ("Provider " ++ p ++ " not supported"))
      = "Provider " ++ p ++ " not supported" := by
  simp only [handleAuthError]
  rw [if_neg (provider_msg_ne p _ (by rfl)),
      if_neg (provider_msg_ne p _ (by rfl)),
      if_neg (provider_msg_ne p _ (by rfl)),
      if_neg (provider_msg_ne p _ (by rfl)),
      if_neg (provider_msg_ne p _ (by rfl)),
      if_neg (provider_msg_ne p _ (by rfl)),
      if_neg (provider_msg_ne p _ (by rfl))]

/-! ## Claim theorems -/

/-- C1: for every sequence of getInstance calls, the first call with a
configuration object constructs the single instance, every later call
(with the same, a different, or no configuration) returns that same
instance and leaves it as the state after the whole sequence, and calling
getInstance with no configuration before any instance exists fails with
the initialization error. -/
theorem getInstance_singleton (cfg : FirebaseConfig)
    (rest : List (Option FirebaseConfig)) :
    (runGetInstanceCalls none (some cfg :: rest)).1
        = Except.ok (FirebaseInit.construct cfg)
            :: (rest.map fun _ => Except.ok (FirebaseInit.construct cfg))
  ∧ (runGetInstanceCalls none (some cfg :: rest)).2
        = some (FirebaseInit.construct cfg)
  ∧ FirebaseInit.getInstance none none
        = .error ("Firebase config is required for initialization") := by
  refine ⟨?_, ?_, rfl⟩ <;>
    simp [runGetInstanceCalls, FirebaseInit.getInstance,
      runGetInstanceCalls_after_init]

/-- A runtime configuration object that omits the required apiKey field
but carries every other field. -/
def missingApiKeyConfig : FirebaseConfig :=
  { apiKey := none
    authDomain := some ("test-domain")
    projectId := some ("test-project")
    storageBucket := some ("test-bucket")
    messagingSenderId := some ("test-sender")
    appId := some ("test-app")
    measurementId := none }

/-- C2 counterexample: a configuration object missing the required apiKey
field is accepted on the very first construction — getInstance succeeds
instead of failing with a ConfigurationError. -/
theorem getInstance_accepts_missing_apiKey :
    missingApiKeyConfig.apiKey = none
  ∧ FirebaseInit.getInstance none (some missingApiKeyConfig)
      = .ok (FirebaseInit.construct missingApiKeyConfig,
             some (FirebaseInit.construct missingApiKeyConfig)) :=
  ⟨rfl, rfl⟩

/-- C2 amended: first construction performs no per-field validation — any
present configuration object is accepted, whatever fields it lacks; only a
wholly absent configuration fails, with the fatal initialization error. -/
theorem getInstance_no_field_validation (cfg : FirebaseConfig) :
    FirebaseInit.getInstance none (some cfg)
      = .ok (FirebaseInit.construct cfg, some (FirebaseInit.construct cfg))
  ∧ FirebaseInit.getInstance none none
      = .error ("Firebase config is required for initialization") :=
  ⟨rfl, rfl⟩

/-- C9: once the lifecycle manager has been constructed, every later
getInstance call leaves the state entirely unchanged and returns the
stored instance; in particular a different configuration passed later is
silently discarded, and the store, auth and analytics handles remain
those built from the first configuration. -/
theorem getInstance_frame (inst : FirebaseInit) (cfg? : Option FirebaseConfig)
    (cfg cfg' : FirebaseConfig) :
    FirebaseInit.getInstance (some inst) cfg? = .ok (inst, some inst)
  ∧ FirebaseInit.getInstance (some (FirebaseInit.construct cfg)) (some cfg')
      = .ok (FirebaseInit.construct cfg, some (FirebaseInit.construct cfg))
  ∧ (FirebaseInit.construct cfg).db = cfg
  ∧ (FirebaseInit.construct cfg).auth = cfg
  ∧ (FirebaseInit.construct cfg).analytics = cfg :=
  ⟨rfl, rfl, rfl, rfl, rfl⟩

/-- C3: for every collection and identifier, read returns the document
when it exists and an explicit absent result (null) when it does not; a
missing document never raises an error, and a read error is raised
exactly when the underlying store operation itself faults. Stated for
both the generic facade and the collection-scoped client. -/
theorem read_spec (db : Store) (c : Coll) (n documentId : String) :
    (∀ d, alookup (collOf db n) documentId = some d →
      FirestoreService.read none db n documentId = .ok (some d))
  ∧ (alookup (collOf db n) documentId = none →
      FirestoreService.read none db n documentId = .ok none)
  ∧ (∀ e, FirestoreService.read none db n documentId ≠ .error e)
  ∧ (∀ f, FirestoreService.read (some f) db n documentId
        = .error ("Error reading document: " ++ f))
  ∧ (∀ d, alookup c documentId = some d →
      FirestoreServiceInstance.read none c documentId = .ok (some d))
  ∧ (alookup c documentId = none →
      FirestoreServiceInstance.read none c documentId = .ok none)
  ∧ (∀ e, FirestoreServiceInstance.read none c documentId ≠ .error e)
  ∧ (∀ f, FirestoreServiceInstance.read (some f) c documentId
        = .error ("Error reading document: " ++ f)) := by
  refine ⟨?_, ?_, ?_, fun f => rfl, ?_, ?_, ?_, fun f => rfl⟩
  · intro d h
    simp [FirestoreService.read, h]
  · intro h
    simp [FirestoreService.read, h]
  · intro e h
    cases hx : alookup (collOf db n) documentId <;>
      simp [FirestoreService.read, hx] at h
  · intro d h
    simp [FirestoreServiceInstance.read, h]
  · intro h
    simp [FirestoreServiceInstance.read, h]
  · intro e h
    cases hx : alookup c documentId <;>
      simp [FirestoreServiceInstance.read, hx] at h

/-- Witness for C3 at a concrete one-document collection. -/
theorem read_spec_witness :
    FirestoreServiceInstance.read none ([("u1", [("a", 1)])]) ("u1")
      = .ok (some [("a", 1)])
  ∧ FirestoreServiceInstance.read none ([("u1", [("a", 1)])]) ("u2")
      = .ok none :=
  ⟨(read_spec [] ([("u1", [("a", 1)])]) ("coll") ("u1")).2.2.2.2.1
      [("a", 1)] (by decide),
   (read_spec [] ([("u1", [("a", 1)])]) ("coll") ("u2")).2.2.2.2.2.1
      (by decide)⟩

/-- The seven backend codes the normalizer recognizes. -/
def knownAuthCodes : List String :=
  ["auth/email-already-in-use", "auth/invalid-email",
   "auth/operation-not-allowed", "auth/weak-password",
   "auth/user-disabled", "auth/user-not-found", "auth/wrong-password"]

/-- C4: each of the seven known backend codes yields exactly the
corresponding stable message from the mapping table, and any unrecognized
code yields the backend message unchanged. -/
theorem handleAuthError_mapping :
    handleAuthError (.errObj ("auth/email-already-in-use"))
        = "This email is already registered"
  ∧ handleAuthError (.errObj ("auth/invalid-email")) = "Invalid email format"
  ∧ handleAuthError (.errObj ("auth/operation-not-allowed")) = "Operation not allowed"
  ∧ handleAuthError (.errObj ("auth/weak-password")) = "Password is too weak"
  ∧ handleAuthError (.errObj ("auth/user-disabled"))
        = "This user account has been disabled"
  ∧ handleAuthError (.errObj ("auth/user-not-found")) = "User not found"
  ∧ handleAuthError (.errObj ("auth/wrong-password")) = "Invalid password"
  ∧ ∀ m, m ∉ knownAuthCodes → handleAuthError (.errObj m) = m := by
  refine ⟨rfl, rfl, rfl, rfl, rfl, rfl, rfl, ?_⟩
  intro m hm
  simp [knownAuthCodes, List.mem_cons, not_or] at hm
  obtain ⟨h1, h2, h3, h4, h5, h6, h7⟩ := hm
  simp [handleAuthError, h1, h2, h3, h4, h5, h6, h7]

/-- Witness for C4 at a concrete unrecognized backend code. -/
theorem handleAuthError_mapping_witness :
    handleAuthError (.errObj ("auth/network-request-failed"))
      = "auth/network-request-failed" :=
  handleAuthError_mapping.2.2.2.2.2.2.2 ("auth/network-request-failed") (by decide)

/-- C10: an input to the normalizer that is not an Error instance yields
the fixed generic message, the original value being discarded. -/
theorem handleAuthError_nonError (v : String) :
    handleAuthError (.nonError v) = "An authentication error occurred" := rfl

/-- C5: for every provider identifier outside the closed registry set,
loginWithProvider fails with the unsupported-provider error and issues no
call to the identity backend; for every identifier inside the set the
registry lookup succeeds. -/
theorem loginWithProvider_spec (p : String) :
    (p ∉ ["google", "facebook", "github", "twitter"] →
      ∀ popup, loginWithProvider popup p
        = (.error ("Provider " ++ p ++ " not supported"), false))
  ∧ (p ∈ ["google", "facebook", "github", "twitter"] →
      (alookup providers p).isSome = true) := by
  constructor
  · intro hp popup
    simp [List.mem_cons, not_or] at hp
    obtain ⟨h1, h2, h3, h4⟩ := hp
    unfold loginWithProvider
    have hnone : alookup providers p = none := by
      simp [providers, alookup, h1, h2, h3, h4]
    rw [hnone, handleAuthError_provider_msg]
  · intro hp
    simp [List.mem_cons] at hp
    rcases hp with rfl | rfl | rfl | rfl <;> decide

/-- Witness for C5: the unknown identifier fails without a backend call,
a registered identifier is found. -/
theorem loginWithProvider_spec_witness :
    loginWithProvider (fun _ => .ok ("cred")) ("unknown")
      = (.error ("Provider " ++ "unknown" ++ " not supported"), false)
  ∧ (alookup providers ("google")).isSome = true :=
  ⟨(loginWithProvider_spec ("unknown")).1 (by decide) (fun _ => .ok ("cred")),
   (loginWithProvider_spec ("google")).2 (by decide)⟩

/-- C6: update on an existing document applies a field-level merge —
fields present in the partial data overwrite, fields absent are
untouched — and returns the full merged document obtained by re-reading
the store after the write. -/
theorem update_field_merge (c : Coll) (documentId : String) (d p : Doc)
    (h : alookup c documentId = some d) :
    FirestoreServiceInstance.update none c documentId p
      = .ok (aset c documentId (mergeDoc d p), (documentId, mergeDoc d p))
  ∧ (∀ k, alookup (mergeDoc d p) k = (alookup p k).or (alookup d k)) := by
  constructor
  · unfold FirestoreServiceInstance.update
    rw [h]
    simp [alookup_aset_self]
  · intro k
    exact mergeDoc_alookup d p k

/-- Witness for C6: creating a document with fields a=1 and b=2 then
updating only b to 3 yields the merged document a=1, b=3. -/
theorem update_field_merge_witness :
    FirestoreServiceInstance.create none [] ([("a", 1), ("b", 2)]) none ("d1")
      = .ok ([("d1", [("a", 1), ("b", 2)])], ("d1", [("a", 1), ("b", 2)]))
  ∧ FirestoreServiceInstance.update none ([("d1", [("a", 1), ("b", 2)])])
        ("d1") ([("b", 3)])
      = .ok ([("d1", [("a", 1), ("b", 3)])], ("d1", [("a", 1), ("b", 3)])) := by
  constructor
  · rfl
  · rw [(update_field_merge ([("d1", [("a", 1), ("b", 2)])]) ("d1")
        ([("a", 1), ("b", 2)]) ([("b", 3)]) (by decide)).1]
    rfl

/-- C7: for every collection state, query with an empty constraint list
returns the same documents, each tagged with its identifier, as getAll on
that collection. Stated for both the generic facade and the
collection-scoped client. -/
theorem query_empty_eq_getAll (db : Store) (collectionName : String) (c : Coll) :
    FirestoreService.query none db collectionName []
      = FirestoreService.getAll none db collectionName
  ∧ FirestoreServiceInstance.query none c []
      = FirestoreServiceInstance.getAll none c := by
  constructor <;>
    simp [FirestoreService.query, FirestoreService.getAll,
      FirestoreServiceInstance.query, FirestoreServiceInstance.getAll,
      runConstraints]

/-- C8 counterexample: a failing delete is re-raised with the operation
name and the underlying fault only — the message for collection users,
identifier doc1 contains neither, so the wrapped context does not name
the collection or identifier involved. -/
theorem delete_error_lacks_context :
    FirestoreService.delete (some ("network failure")) [] ("users") ("doc1")
      = .error ("Error deleting document: network failure")
  ∧ ¬ (("users").data <:+: ("Error deleting document: network failure").data)
  ∧ ¬ (("doc1").data <:+: ("Error deleting document: network failure").data) :=
  ⟨rfl, by decide, by decide⟩

/-- C8 amended: every failing operation of either document client is
re-raised to the caller wrapped with the operation name and the
underlying fault — no error is silently swallowed — but the wrapped
message does not include the collection or identifier involved. -/
theorem errors_wrapped_with_operation (f : String) (db : Store) (c : Coll)
    (n documentId genId : String) (d : Doc) (customId : Option String)
    (cs : List QueryConstraint) :
    FirestoreService.create (some f) db n d customId genId
        = .error ("Error creating document: " ++ f)
  ∧ FirestoreService.read (some f) db n documentId
        = .error ("Error reading document: " ++ f)
  ∧ FirestoreService.update (some f) db n documentId d
        = .error ("Error updating document: " ++ f)
  ∧ FirestoreService.delete (some f) db n documentId
        = .error ("Error deleting document: " ++ f)
  ∧ FirestoreService.getAll (some f) db n
        = .error ("Error getting all documents: " ++ f)
  ∧ FirestoreService.query (some f) db n cs
        = .error ("Error querying documents: " ++ f)
  ∧ FirestoreServiceInstance.create (some f) c d customId genId
        = .error ("Error creating document: " ++ f)
  ∧ FirestoreServiceInstance.delete (some f) c documentId
        = .error ("Error deleting document: " ++ f) :=
  ⟨rfl, rfl, rfl, rfl, rfl, rfl, rfl, rfl⟩

/-- A complete runtime configuration object, used to instantiate the
lifecycle theorems. -/
def sampleConfig : FirebaseConfig :=
  { apiKey := some ("k")
    authDomain := some ("d")
    projectId := some ("p")
    storageBucket := some ("b")
    messagingSenderId := some ("s")
    appId := some ("a")
    measurementId := none }

/-- Witness for C1 on a concrete three-call sequence: configured first
call, then a bare call, then a call with the same configuration. -/
theorem getInstance_singleton_witness :
    (runGetInstanceCalls none [some sampleConfig, none, some sampleConfig]).1
      = [Except.ok (FirebaseInit.construct sampleConfig),
         Except.ok (FirebaseInit.construct sampleConfig),
         Except.ok (FirebaseInit.construct sampleConfig)] := by
  rw [(getInstance_singleton sampleConfig [none, some sampleConfig]).1]
  rfl

/-- Witness for the amended C2 at a concrete configuration. -/
theorem getInstance_no_field_validation_witness :
    FirebaseInit.getInstance none (some sampleConfig)
      = .ok (FirebaseInit.construct sampleConfig,
             some (FirebaseInit.construct sampleConfig))
  ∧ FirebaseInit.getInstance none none
      = .error ("Firebase config is required for initialization") :=
  getInstance_no_field_validation sampleConfig

/-- Witness for C9: a later call with a different configuration returns
the stored instance and discards the new configuration. -/
theorem getInstance_frame_witness :
    FirebaseInit.getInstance (some (FirebaseInit.construct sampleConfig))
        (some missingApiKeyConfig)
      = .ok (FirebaseInit.construct sampleConfig,
             some (FirebaseInit.construct sampleConfig)) :=
  (getInstance_frame (FirebaseInit.construct sampleConfig)
    (some missingApiKeyConfig) sampleConfig missingApiKeyConfig).2.1

/-- Witness for C10 at a concrete non-Error value. -/
theorem handleAuthError_nonError_witness :
    handleAuthError (.nonError ("a plain thrown string"))
      = "An authentication error occurred" :=
  handleAuthError_nonError ("a plain thrown string")

/-- Witness for C7 on a concrete two-document collection. -/
theorem query_empty_eq_getAll_witness :
    FirestoreServiceInstance.query none
        ([("u1", [("a", 1)]), ("u2", [("b", 2)])]) []
      = FirestoreServiceInstance.getAll none
        ([("u1", [("a", 1)]), ("u2", [("b", 2)])]) :=
  (query_empty_eq_getAll [] ("coll")
    ([("u1", [("a", 1)]), ("u2", [("b", 2)])])).2

/-- Witness for the amended C8 at a concrete fault. -/
theorem errors_wrapped_with_operation_witness :
    FirestoreService.delete (some ("network failure")) [] ("users") ("doc1")
      = .error ("Error deleting document: " ++ "network failure") :=
  (errors_wrapped_with_operation ("network failure") [] [] ("users") ("doc1")
    ("g") [] none []).2.2.2.1

end FirebaseAll
